import Mathlib

/-
Verification of btsyncw (main.go): a shallow embedding of the configuration
validation, mount derivation, and launch-parameter construction logic, with
theorems checking the natural-language specification against it.
-/

namespace Btsyncw

/-- The structure of the config file (struct `Config` in main.go).
`Uid`/`Gid` are Go `int64`, modelled as `Int`. -/
structure Config where
  Folders : List String
  Storage : String
  Ip : String
  Network : String
  Uid : Int
  Gid : Int
deriving DecidableEq

/-- `DockerImage` constant from main.go. -/
def DockerImage : String := "sync"

/-- `DockerImageTag` constant from main.go. -/
def DockerImageTag : String := "slim"

/-- A quote character, single (code 39) or double (code 34): the character
class matched by the Go regexp `("|')`. -/
def isQuote (ch : Char) : Bool := ch = Char.ofNat 34 || ch = Char.ofNat 39

/-- `detectCmdInjection` from main.go: the regexp `("|')` finds a match,
i.e. the string contains a double or single quote character. -/
def detectCmdInjection (input : String) : Bool :=
  input.toList.any isQuote

/-- The distinct `errors.New` outcomes of `validateConfig` in main.go,
one constructor per message. -/
inductive ValidationError where
  | storageRequired
  | storageInjection
  | ipRequiresNetwork
  | ipInjection
  | networkInjection
  | foldersInjection
  | uidGidRequired
deriving DecidableEq

/-- The Go error message text carried by each outcome (apostrophes written
as \x27 escapes). -/
def ValidationError.message : ValidationError → String
  | .storageRequired => "\x27Storage\x27 field is required"
  | .storageInjection => "Possible Commandline Injection found in \x27Storage\x27"
  | .ipRequiresNetwork => "The field \x27Ip\x27 requires \x27Network\x27"
  | .ipInjection => "Possible Commandline Injection found in \x27Ip\x27"
  | .networkInjection => "Possible Commandline Injection found in \x27Network\x27"
  | .foldersInjection => "Possible Commandline Injection found in \x27Folders\x27"
  | .uidGidRequired => "Field the fields \x27Uid\x27 and \x27Gid\x27 are required"

/-- Whether an outcome is one of the injection-detected errors
(message reports a possible commandline injection). -/
def ValidationError.isInjection : ValidationError → Bool
  | .storageInjection => true
  | .ipInjection => true
  | .networkInjection => true
  | .foldersInjection => true
  | _ => false

/-- `validateConfig` from main.go: `none` models the `nil` return (success),
`some e` the corresponding `errors.New` return.  The Go `for` loop over
`c.Folders` returns on the first suspicious entry, always with the same
error, which is `List.any` here. -/
def validateConfig (c : Config) : Option ValidationError :=
  if c.Storage = "" then some .storageRequired
  else if detectCmdInjection c.Storage then some .storageInjection
  else if c.Ip ≠ "" ∧ c.Network = "" then some .ipRequiresNetwork
  else if detectCmdInjection c.Ip then some .ipInjection
  else if detectCmdInjection c.Network then some .networkInjection
  else if c.Folders.any detectCmdInjection then some .foldersInjection
  else if c.Uid = 0 ∨ c.Gid = 0 then some .uidGidRequired
  else none

/-- Mount types of the docker mount package; main.go only uses `TypeBind`. -/
inductive MountType where
  | bind
  | volume
  | tmpfs
deriving DecidableEq

/-- `mount.Mount` record as used by main.go: a type, a source path and a
target path. -/
structure Mount where
  type : MountType
  Source : String
  Target : String
deriving DecidableEq

/-- Go `strings.Split(s, sep)` for a one-character separator, on the list of
characters: the result always has one more element than there are separator
occurrences, so it is never empty. -/
def splitChar (sep : Char) : List Char → List (List Char)
  | [] => [[]]
  | ch :: cs =>
    if ch = sep then [] :: splitChar sep cs
    else
      match splitChar sep cs with
      | [] => [[ch]]
      | r :: rs => (ch :: r) :: rs

/-- `splitPath := strings.Split(c.Folders[fi], "/")` from main.go, as a
function of the folder string. -/
def splitPath (f : String) : List String :=
  (splitChar (Char.ofNat 47) f.toList).map String.mk

/-- `dirname := splitPath[len(splitPath)-1]` from main.go: the last element
of the split (the split is never empty, so the default is never used). -/
def dirname (f : String) : String :=
  (splitPath f).getLastD ""

/-- The mount appended for one folder inside the loop of main.go. -/
def folderMount (f : String) : Mount :=
  { type := .bind, Source := f, Target := "/mnt/folders/" ++ dirname f }

/-- The storage mount appended after the loop in main.go. -/
def storageMount (c : Config) : Mount :=
  { type := .bind, Source := c.Storage, Target := "/mnt/config" }

/-- The `mounts` slice built by main.go: one bind mount per folder, in
order, then the storage mount. -/
def deriveMounts (c : Config) : List Mount :=
  c.Folders.map folderMount ++ [storageMount c]

/-- `buildEnvVars` from main.go; `strconv.FormatInt(_, 10)` is decimal
`Int` printing. -/
def buildEnvVars (c : Config) : List String :=
  ["USERID=" ++ toString c.Uid, "GROUPID=" ++ toString c.Gid]

/-- `network.EndpointSettings` as used by main.go. -/
structure EndpointSettings where
  IPAddress : String
deriving DecidableEq

/-- `network.NetworkingConfig`: the `EndpointsConfig` map, modelled as an
association list (main.go puts at most one entry in it). -/
structure NetworkingConfig where
  EndpointsConfig : List (String × EndpointSettings)
deriving DecidableEq

/-- `buildNetConfig` from main.go: the endpoint map binds the network name
to the IP only when both `Ip` and `Network` are set. -/
def buildNetConfig (c : Config) : NetworkingConfig :=
  if c.Ip ≠ "" ∧ c.Network ≠ "" then
    { EndpointsConfig := [(c.Network, { IPAddress := c.Ip })] }
  else
    { EndpointsConfig := [] }

/-- `container.HostConfig` as used by main.go; `NetworkMode` has Go zero
value `""`. -/
structure HostConfig where
  Mounts : List Mount
  AutoRemove : Bool
  NetworkMode : String
deriving DecidableEq

/-- `buildHostConfig` from main.go: mounts and auto-remove always set,
`NetworkMode` only when a network is specified. -/
def buildHostConfig (c : Config) (mounts : List Mount) : HostConfig :=
  let ret : HostConfig := { Mounts := mounts, AutoRemove := true, NetworkMode := "" }
  if c.Network ≠ "" then { ret with NetworkMode := c.Network } else ret

/-- `container.Config` as used by main.go. -/
structure ContainerConfig where
  Image : String
  Env : List String
deriving DecidableEq

/-- `buildContainerConfig` from main.go. -/
def buildContainerConfig (c : Config) : ContainerConfig :=
  { Image := DockerImage ++ ":" ++ DockerImageTag, Env := buildEnvVars c }

/-- The observable docker-side actions of main.go after validation, in the
order main.go attempts them. -/
inductive LaunchEvent where
  | connectDaemon
  | containerCreate
  | containerStart
deriving DecidableEq

/-- What main.go does after the config is parsed: exit with the validation
error, or build the three configs and launch. -/
inductive MainOutcome where
  | exitError (e : ValidationError)
  | launched (cc : ContainerConfig) (hc : HostConfig) (nc : NetworkingConfig)
deriving DecidableEq

/-- Process exit status of an outcome: `os.Exit(1)` on a validation error,
0 on the success path. -/
def MainOutcome.exitStatus : MainOutcome → Nat
  | .exitError _ => 1
  | .launched _ _ _ => 0

/-- The post-parse control flow of main.go, paired with the list of
docker-side events it then attempts (daemon connection, `ContainerCreate`,
`ContainerStart`, in that order): on a validation error it exits at once
and attempts none of them. -/
def mainAfterParse (c : Config) : MainOutcome × List LaunchEvent :=
  match validateConfig c with
  | some e => (.exitError e, [])
  | none =>
      (.launched (buildContainerConfig c)
        (buildHostConfig c (deriveMounts c)) (buildNetConfig c),
       [.connectDaemon, .containerCreate, .containerStart])

/-- The byte rewrite of the loader loop in main.go: a NUL byte (0x00)
becomes a space (0x20). -/
def nulToSpace (b : Nat) : Nat := if b = 0 then 32 else b

/-- The loader loop of main.go applied to a whole buffer. -/
def replaceNuls (buf : List Nat) : List Nat := buf.map nulToSpace

/-- The loader step of main.go after the file read, parametric in the JSON
parser (`json.Unmarshal` into `Config`): replace NULs with spaces, then
parse. -/
def loadConfig (parse : List Nat → Option Config) (buf : List Nat) : Option Config :=
  parse (replaceNuls buf)

/-- JSON insignificant whitespace bytes: space, tab, line feed, carriage
return. -/
def isJsonWs (b : Nat) : Bool := b = 32 || b = 9 || b = 10 || b = 13

/-- Two byte buffers that agree except that at some positions both hold
(possibly different) JSON whitespace bytes.  Any JSON parser is invariant
under this relation. -/
def wsEquiv : List Nat → List Nat → Prop :=
  List.Forall₂ (fun a b => a = b ∨ (isJsonWs a = true ∧ isJsonWs b = true))

/-- Rewrite every newline byte of a buffer to a NUL byte: the known quirk
of the input files main.go tolerates. -/
def nlToNul (buf : List Nat) : List Nat :=
  buf.map (fun b => if b = 10 then 0 else b)

/-- The minimal configuration of the spec:
`{"Storage":"/cfg","Uid":1000,"Gid":1000}` with the other fields at their
Go zero values. -/
def cfgMinimal : Config :=
  { Folders := [], Storage := "/cfg", Ip := "", Network := "", Uid := 1000, Gid := 1000 }

/-- The two-folder example configuration of the spec. -/
def cfgTwoFolders : Config :=
  { Folders := ["/data/a", "/data/b"], Storage := "/cfg", Ip := "", Network := "",
    Uid := 1000, Gid := 1000 }

/-- A configuration whose `Ip` holds a double quote but whose `Network` is
empty: the quote is in a checked field, yet the Ip-requires-Network rule
fires first. -/
def cfgIpQuoteNoNetwork : Config :=
  { Folders := [], Storage := "/cfg", Ip := "\"", Network := "", Uid := 1000, Gid := 1000 }

/-- A configuration with a double quote in a folder entry and every
earlier-checked field clean. -/
def cfgQuoteFolder : Config :=
  { Folders := ["\"x"], Storage := "/cfg", Ip := "", Network := "", Uid := 1000, Gid := 1000 }

/-- A configuration with negative `Uid` and `Gid`. -/
def cfgNegativeIds : Config :=
  { Folders := [], Storage := "/cfg", Ip := "", Network := "", Uid := -1, Gid := -1 }

/-- A configuration with empty `Storage` (rejected by the first rule). -/
def cfgEmptyStorage : Config :=
  { Folders := [], Storage := "", Ip := "", Network := "", Uid := 1000, Gid := 1000 }

/-- A valid configuration with both an IP and a network. -/
def cfgNetworked : Config :=
  { Folders := ["/data/a"], Storage := "/cfg", Ip := "10.0.0.2", Network := "mynet",
    Uid := 1000, Gid := 1000 }

/-- A valid configuration with two folders whose basenames collide. -/
def cfgCollide : Config :=
  { Folders := ["/a/x", "/b/x"], Storage := "/cfg", Ip := "", Network := "",
    Uid := 1000, Gid := 1000 }

/-- A sample whitespace-insensitive parser used to instantiate the
parametric loader theorem: it accepts a buffer made of JSON whitespace
only, returning a fixed configuration. -/
def wsOnlyParse (bs : List Nat) : Option Config :=
  if bs.filter (fun b => !isJsonWs b) = [] then some cfgMinimal else none

/-! ### Helper lemmas: characterization of `validateConfig` -/

lemma vc_none_iff (c : Config) :
    validateConfig c = none ↔
      (c.Storage ≠ "" ∧ detectCmdInjection c.Storage = false ∧
       ¬(c.Ip ≠ "" ∧ c.Network = "") ∧ detectCmdInjection c.Ip = false ∧
       detectCmdInjection c.Network = false ∧ c.Folders.any detectCmdInjection = false ∧
       c.Uid ≠ 0 ∧ c.Gid ≠ 0) := by
  unfold validateConfig
  split_ifs with h1 h2 h3 h4 h5 h6 h7 <;> simp_all
  tauto

lemma vc_storageRequired_iff (c : Config) :
    validateConfig c = some ValidationError.storageRequired ↔ c.Storage = "" := by
  unfold validateConfig
  split_ifs with h1 h2 h3 h4 h5 h6 h7 <;> simp_all

lemma vc_storageInjection_iff (c : Config) :
    validateConfig c = some ValidationError.storageInjection ↔
      c.Storage ≠ "" ∧ detectCmdInjection c.Storage = true := by
  unfold validateConfig
  split_ifs with h1 h2 h3 h4 h5 h6 h7 <;> simp_all

lemma vc_ipRequiresNetwork_iff (c : Config) :
    validateConfig c = some ValidationError.ipRequiresNetwork ↔
      c.Storage ≠ "" ∧ detectCmdInjection c.Storage = false ∧
      (c.Ip ≠ "" ∧ c.Network = "") := by
  unfold validateConfig
  split_ifs with h1 h2 h3 h4 h5 h6 h7 <;> simp_all

lemma vc_ipInjection_iff (c : Config) :
    validateConfig c = some ValidationError.ipInjection ↔
      c.Storage ≠ "" ∧ detectCmdInjection c.Storage = false ∧
      ¬(c.Ip ≠ "" ∧ c.Network = "") ∧ detectCmdInjection c.Ip = true := by
  unfold validateConfig
  split_ifs with h1 h2 h3 h4 h5 h6 h7 <;> simp_all

lemma vc_networkInjection_iff (c : Config) :
    validateConfig c = some ValidationError.networkInjection ↔
      c.Storage ≠ "" ∧ detectCmdInjection c.Storage = false ∧
      ¬(c.Ip ≠ "" ∧ c.Network = "") ∧ detectCmdInjection c.Ip = false ∧
      detectCmdInjection c.Network = true := by
  unfold validateConfig
  split_ifs with h1 h2 h3 h4 h5 h6 h7 <;> simp_all

lemma vc_foldersInjection_iff (c : Config) :
    validateConfig c = some ValidationError.foldersInjection ↔
      c.Storage ≠ "" ∧ detectCmdInjection c.Storage = false ∧
      ¬(c.Ip ≠ "" ∧ c.Network = "") ∧ detectCmdInjection c.Ip = false ∧
      detectCmdInjection c.Network = false ∧ c.Folders.any detectCmdInjection = true := by
  unfold validateConfig
  split_ifs with h1 h2 h3 h4 h5 h6 h7 <;> simp_all

lemma vc_uidGid_iff (c : Config) :
    validateConfig c = some ValidationError.uidGidRequired ↔
      c.Storage ≠ "" ∧ detectCmdInjection c.Storage = false ∧
      ¬(c.Ip ≠ "" ∧ c.Network = "") ∧ detectCmdInjection c.Ip = false ∧
      detectCmdInjection c.Network = false ∧ c.Folders.any detectCmdInjection = false ∧
      (c.Uid = 0 ∨ c.Gid = 0) := by
  unfold validateConfig
  split_ifs with h1 h2 h3 h4 h5 h6 h7 <;> simp_all

/-! ### Helper lemmas: path splitting and whitespace equivalence -/

lemma splitChar_ne_nil (sep : Char) (l : List Char) : splitChar sep l ≠ [] := by
  induction l with
  | nil => simp [splitChar]
  | cons ch cs ih =>
    unfold splitChar
    split_ifs
    · simp
    · cases h : splitChar sep cs with
      | nil => simp
      | cons r rs => simp

lemma splitChar_append_sep (sep : Char) (l : List Char) :
    splitChar sep (l ++ [sep]) = splitChar sep l ++ [[]] := by
  induction l with
  | nil => simp [splitChar]
  | cons ch cs ih =>
    by_cases h : ch = sep
    · simp only [List.cons_append, splitChar, if_pos h]
      rw [show cs.append [sep] = cs ++ [sep] from rfl, ih]
    · simp only [List.cons_append, splitChar, if_neg h]
      rw [show cs.append [sep] = cs ++ [sep] from rfl, ih]
      cases hc : splitChar sep cs with
      | nil => exact absurd hc (splitChar_ne_nil sep cs)
      | cons r rs => simp

lemma splitPath_ne_nil (f : String) : splitPath f ≠ [] := by
  unfold splitPath
  simp [List.map_eq_nil_iff, splitChar_ne_nil]

lemma dirname_of_ends_slash (f : String) (l : List Char)
    (h : f.toList = l ++ [Char.ofNat 47]) : dirname f = "" := by
  unfold dirname splitPath
  rw [h, splitChar_append_sep]
  simp [List.getLastD_concat]

lemma filter_nonws_eq {x y : List Nat} (h : wsEquiv x y) :
    x.filter (fun b => !isJsonWs b) = y.filter (fun b => !isJsonWs b) := by
  induction h with
  | nil => rfl
  | cons hab _ ih =>
    rcases hab with heq | ⟨ha, hb⟩
    · subst heq
      simp [List.filter_cons, ih]
    · simp [List.filter_cons, ha, hb, ih]

lemma wsOnlyParse_wsEquiv (x y : List Nat) (h : wsEquiv x y) :
    wsOnlyParse x = wsOnlyParse y := by
  unfold wsOnlyParse
  rw [filter_nonws_eq h]

lemma wsEquiv_replaceNuls_nlToNul (orig : List Nat) (h : ∀ b ∈ orig, b ≠ 0) :
    wsEquiv (replaceNuls (nlToNul orig)) orig := by
  induction orig with
  | nil => exact List.Forall₂.nil
  | cons b bs ih =>
    have hb : b ≠ 0 := h b (by simp)
    have hbs : ∀ x ∈ bs, x ≠ 0 := fun x hx => h x (by simp [hx])
    by_cases h10 : b = 10
    · subst h10
      exact List.Forall₂.cons (Or.inr ⟨rfl, rfl⟩) (ih hbs)
    · refine List.Forall₂.cons (Or.inl ?_) (ih hbs)
      simp [nulToSpace, h10, hb]

/-! ### Claim theorems -/

/-- Claim C1: `validateConfig` checks the rules in the stated order with the
first failure winning — each outcome occurs exactly when its condition holds
and all earlier conditions fail, and it returns success exactly when none of
the conditions hold. -/
theorem validateConfig_checks_rules_in_order (c : Config) :
    (validateConfig c = some ValidationError.storageRequired ↔ c.Storage = "") ∧
    (validateConfig c = some ValidationError.storageInjection ↔
      c.Storage ≠ "" ∧ detectCmdInjection c.Storage = true) ∧
    (validateConfig c = some ValidationError.ipRequiresNetwork ↔
      c.Storage ≠ "" ∧ detectCmdInjection c.Storage = false ∧
      (c.Ip ≠ "" ∧ c.Network = "")) ∧
    (validateConfig c = some ValidationError.ipInjection ↔
      c.Storage ≠ "" ∧ detectCmdInjection c.Storage = false ∧
      ¬(c.Ip ≠ "" ∧ c.Network = "") ∧ detectCmdInjection c.Ip = true) ∧
    (validateConfig c = some ValidationError.networkInjection ↔
      c.Storage ≠ "" ∧ detectCmdInjection c.Storage = false ∧
      ¬(c.Ip ≠ "" ∧ c.Network = "") ∧ detectCmdInjection c.Ip = false ∧
      detectCmdInjection c.Network = true) ∧
    (validateConfig c = some ValidationError.foldersInjection ↔
      c.Storage ≠ "" ∧ detectCmdInjection c.Storage = false ∧
      ¬(c.Ip ≠ "" ∧ c.Network = "") ∧ detectCmdInjection c.Ip = false ∧
      detectCmdInjection c.Network = false ∧ c.Folders.any detectCmdInjection = true) ∧
    (validateConfig c = some ValidationError.uidGidRequired ↔
      c.Storage ≠ "" ∧ detectCmdInjection c.Storage = false ∧
      ¬(c.Ip ≠ "" ∧ c.Network = "") ∧ detectCmdInjection c.Ip = false ∧
      detectCmdInjection c.Network = false ∧ c.Folders.any detectCmdInjection = false ∧
      (c.Uid = 0 ∨ c.Gid = 0)) ∧
    (validateConfig c = none ↔
      (c.Storage ≠ "" ∧ detectCmdInjection c.Storage = false ∧
       ¬(c.Ip ≠ "" ∧ c.Network = "") ∧ detectCmdInjection c.Ip = false ∧
       detectCmdInjection c.Network = false ∧ c.Folders.any detectCmdInjection = false ∧
       c.Uid ≠ 0 ∧ c.Gid ≠ 0)) :=
  ⟨vc_storageRequired_iff c, vc_storageInjection_iff c, vc_ipRequiresNetwork_iff c,
   vc_ipInjection_iff c, vc_networkInjection_iff c, vc_foldersInjection_iff c,
   vc_uidGid_iff c, vc_none_iff c⟩

/-- Claim C2: for every configuration that passes validation, the derived
mounts are one bind mount per folder in input order — source the folder path
unchanged, target `/mnt/folders/` joined with the last `/`-separated segment
— followed by exactly one final bind mount from the storage path to
`/mnt/config`. -/
theorem derived_mounts_shape (c : Config) (_hv : validateConfig c = none) :
    (deriveMounts c).length = c.Folders.length + 1 ∧
    (∀ i, (h : i < c.Folders.length) →
      (deriveMounts c)[i]? =
        some { type := MountType.bind, Source := c.Folders[i],
               Target := "/mnt/folders/" ++ (splitPath c.Folders[i]).getLastD "" }) ∧
    (deriveMounts c).getLast? =
      some { type := MountType.bind, Source := c.Storage, Target := "/mnt/config" } := by
  refine ⟨by simp [deriveMounts], ?_, ?_⟩
  · intro i h
    simp [deriveMounts, List.getElem?_append, h, List.getElem?_eq_getElem, folderMount, dirname]
  · unfold deriveMounts storageMount
    exact List.getLast?_concat _

/-- Witness for C2 at the spec example `Folders = ["/data/a", "/data/b"]`,
`Storage = "/cfg"`: targets `/mnt/folders/a`, `/mnt/folders/b`,
`/mnt/config` in that order, sources preserved. -/
theorem derived_mounts_shape_witness :
    validateConfig cfgTwoFolders = none ∧
    (deriveMounts cfgTwoFolders).map (fun m => m.Target) =
      ["/mnt/folders/a", "/mnt/folders/b", "/mnt/config"] ∧
    (deriveMounts cfgTwoFolders).map (fun m => m.Source) = ["/data/a", "/data/b", "/cfg"] ∧
    (deriveMounts cfgTwoFolders).length = cfgTwoFolders.Folders.length + 1 :=
  ⟨by decide, by decide, by decide, (derived_mounts_shape cfgTwoFolders (by decide)).1⟩

/-- Counterexample to C3 as stated: `cfgIpQuoteNoNetwork` has a quote in
`Ip`, yet `validateConfig` fails with the Ip-requires-Network error, which
is not an injection-detected outcome. -/
theorem quote_in_ip_not_injection_outcome :
    detectCmdInjection cfgIpQuoteNoNetwork.Ip = true ∧
    validateConfig cfgIpQuoteNoNetwork = some ValidationError.ipRequiresNetwork ∧
    ValidationError.ipRequiresNetwork.isInjection = false := by decide

/-- Claim C3 (amended): a quote character in `Storage`, `Ip`, `Network` or
any folder entry always makes `validateConfig` fail; the failure is an
injection-detected outcome whenever the earlier-ordered rules (non-empty
`Storage`; `Ip` requires `Network`) do not fire first. -/
theorem quote_anywhere_rejected (c : Config)
    (hq : detectCmdInjection c.Storage = true ∨ detectCmdInjection c.Ip = true ∨
          detectCmdInjection c.Network = true ∨ c.Folders.any detectCmdInjection = true) :
    validateConfig c ≠ none ∧
    (c.Storage ≠ "" → ¬(c.Ip ≠ "" ∧ c.Network = "") →
      ∃ e, validateConfig c = some e ∧ e.isInjection = true) := by
  constructor
  · intro hnone
    rw [vc_none_iff] at hnone
    obtain ⟨-, hs, -, hi, hn, hf, -, -⟩ := hnone
    rcases hq with h | h | h | h <;> simp_all
  · intro hs hin
    by_cases hsq : detectCmdInjection c.Storage = true
    · exact ⟨ValidationError.storageInjection, (vc_storageInjection_iff c).mpr ⟨hs, hsq⟩, rfl⟩
    · have hsq2 : detectCmdInjection c.Storage = false := by simp_all
      by_cases hiq : detectCmdInjection c.Ip = true
      · exact ⟨ValidationError.ipInjection, (vc_ipInjection_iff c).mpr ⟨hs, hsq2, hin, hiq⟩, rfl⟩
      · have hiq2 : detectCmdInjection c.Ip = false := by simp_all
        by_cases hnq : detectCmdInjection c.Network = true
        · exact ⟨ValidationError.networkInjection,
            (vc_networkInjection_iff c).mpr ⟨hs, hsq2, hin, hiq2, hnq⟩, rfl⟩
        · have hnq2 : detectCmdInjection c.Network = false := by simp_all
          have hfq : c.Folders.any detectCmdInjection = true := by
            rcases hq with h | h | h | h <;> simp_all
          exact ⟨ValidationError.foldersInjection,
            (vc_foldersInjection_iff c).mpr ⟨hs, hsq2, hin, hiq2, hnq2, hfq⟩, rfl⟩

/-- Witness for the amended C3 at a configuration with a quoted folder
entry: validation fails, with the folders injection outcome. -/
theorem quote_anywhere_rejected_witness :
    validateConfig cfgQuoteFolder ≠ none ∧
    validateConfig cfgQuoteFolder = some ValidationError.foldersInjection ∧
    ValidationError.foldersInjection.isInjection = true :=
  ⟨(quote_anywhere_rejected cfgQuoteFolder (by decide)).1, by decide, by decide⟩

/-- Claim C4: when validation fails, main exits with status 1 and the list
of attempted docker-side actions (daemon connection, container create,
container start) is empty — the launch is never invoked. -/
theorem validation_failure_no_launch (c : Config) (e : ValidationError)
    (h : validateConfig c = some e) :
    mainAfterParse c = (MainOutcome.exitError e, []) ∧
    (mainAfterParse c).1.exitStatus = 1 ∧
    (mainAfterParse c).2 = [] := by
  simp [mainAfterParse, h, MainOutcome.exitStatus]

/-- Witness for C4 at the empty-storage configuration. -/
theorem validation_failure_no_launch_witness :
    mainAfterParse cfgEmptyStorage = (MainOutcome.exitError ValidationError.storageRequired, []) ∧
    (mainAfterParse cfgEmptyStorage).1.exitStatus = 1 ∧
    (mainAfterParse cfgEmptyStorage).2 = [] :=
  validation_failure_no_launch cfgEmptyStorage ValidationError.storageRequired (by decide)

/-- Claim C5: for every configuration that passes validation, the API
strategy builds the container config with image `sync:slim` and environment
`USERID`/`GROUPID` in decimal, the host config with the derived mounts,
auto-remove set, and network mode exactly when `Network` is non-empty, and
the network config whose endpoint map binds `Network` to `Ip` exactly when
both are non-empty, and is empty otherwise. -/
theorem api_launch_configs (c : Config) (_hv : validateConfig c = none) :
    (buildContainerConfig c).Image = DockerImage ++ ":" ++ DockerImageTag ∧
    DockerImage = "sync" ∧ DockerImageTag = "slim" ∧
    (buildContainerConfig c).Env =
      ["USERID=" ++ toString c.Uid, "GROUPID=" ++ toString c.Gid] ∧
    (buildHostConfig c (deriveMounts c)).Mounts = deriveMounts c ∧
    (buildHostConfig c (deriveMounts c)).AutoRemove = true ∧
    (c.Network ≠ "" → (buildHostConfig c (deriveMounts c)).NetworkMode = c.Network) ∧
    (c.Network = "" → (buildHostConfig c (deriveMounts c)).NetworkMode = "") ∧
    (c.Ip ≠ "" ∧ c.Network ≠ "" →
      (buildNetConfig c).EndpointsConfig = [(c.Network, { IPAddress := c.Ip })]) ∧
    (¬(c.Ip ≠ "" ∧ c.Network ≠ "") → (buildNetConfig c).EndpointsConfig = []) := by
  unfold buildContainerConfig buildEnvVars buildHostConfig buildNetConfig
  by_cases hn : c.Network = "" <;> by_cases hi : c.Ip = "" <;> simp_all
  all_goals exact ⟨rfl, rfl⟩

/-- Witness for C5 at a valid configuration with both IP and network. -/
theorem api_launch_configs_witness :
    (buildContainerConfig cfgNetworked).Image = "sync:slim" ∧
    (buildContainerConfig cfgNetworked).Env = ["USERID=1000", "GROUPID=1000"] ∧
    (buildHostConfig cfgNetworked (deriveMounts cfgNetworked)).NetworkMode = "mynet" ∧
    (buildHostConfig cfgNetworked (deriveMounts cfgNetworked)).AutoRemove = true ∧
    (buildNetConfig cfgNetworked).EndpointsConfig =
      [("mynet", { IPAddress := "10.0.0.2" })] := by
  have h := api_launch_configs cfgNetworked (by decide)
  exact ⟨by decide, by decide, h.2.2.2.2.2.2.1 (by decide), by decide,
    h.2.2.2.2.2.2.2.2.1 ⟨by decide, by decide⟩⟩

/-- Claim C6: the minimal configuration `{"Storage":"/cfg","Uid":1000,
"Gid":1000}` passes validation and its mount derivation is exactly one
bind mount from `/cfg` to `/mnt/config`. -/
theorem minimal_config_roundtrip :
    validateConfig cfgMinimal = none ∧
    deriveMounts cfgMinimal =
      [{ type := MountType.bind, Source := "/cfg", Target := "/mnt/config" }] := by decide

/-- Claim C7: the loader's NUL-replacement step followed by parsing yields
exactly the result of parsing the space-substituted bytes, so any buffer
that parses after the substitution loads successfully; moreover, for any
parser invariant under JSON whitespace exchange, a NUL-free buffer that
parses still loads after its newlines are replaced by NUL bytes. -/
theorem loader_nul_replacement :
    (∀ (parse : List Nat → Option Config) (buf : List Nat) (c : Config),
        parse (replaceNuls buf) = some c → loadConfig parse buf = some c) ∧
    (∀ (parse : List Nat → Option Config),
        (∀ x y, wsEquiv x y → parse x = parse y) →
        ∀ (orig : List Nat) (c : Config), (∀ b ∈ orig, b ≠ 0) →
          parse orig = some c → loadConfig parse (nlToNul orig) = some c) := by
  constructor
  · intro parse buf c h
    exact h
  · intro parse hws orig c hnz hp
    unfold loadConfig
    rw [hws _ _ (wsEquiv_replaceNuls_nlToNul orig hnz), hp]

/-- Witness for C7 with the sample whitespace-insensitive parser: a NUL
buffer loads, and a CR-LF buffer still loads after newlines become NULs. -/
theorem loader_nul_replacement_witness :
    loadConfig wsOnlyParse [0] = some cfgMinimal ∧
    loadConfig wsOnlyParse (nlToNul [13, 10]) = some cfgMinimal :=
  ⟨loader_nul_replacement.1 wsOnlyParse [0] cfgMinimal (by decide),
   loader_nul_replacement.2 wsOnlyParse wsOnlyParse_wsEquiv [13, 10] cfgMinimal
     (by decide) (by decide)⟩

/-- Claim C8: the mount basename computation is total — splitting any
string on `/` is never empty, so taking the last element never fails; an
empty folder path or one ending in `/` gets basename `""` and target
exactly `/mnt/folders/`. -/
theorem mount_basename_total :
    (∀ f : String, splitPath f ≠ []) ∧
    (∀ f : String, (f = "" ∨ ∃ l, f.toList = l ++ [Char.ofNat 47]) →
      dirname f = "" ∧ (folderMount f).Target = "/mnt/folders/") := by
  refine ⟨splitPath_ne_nil, ?_⟩
  intro f hf
  have hd : dirname f = "" := by
    rcases hf with rfl | ⟨l, hl⟩
    · rfl
    · exact dirname_of_ends_slash f l hl
  refine ⟨hd, ?_⟩
  show "/mnt/folders/" ++ dirname f = "/mnt/folders/"
  rw [hd]
  simp

/-- Witness for C8 at the empty path and the path `a/`. -/
theorem mount_basename_total_witness :
    splitPath "" ≠ [] ∧ dirname "a/" = "" ∧ (folderMount "a/").Target = "/mnt/folders/" :=
  ⟨mount_basename_total.1 "",
   (mount_basename_total.2 "a/" (Or.inr ⟨[Char.ofNat 97], by decide⟩)).1,
   (mount_basename_total.2 "a/" (Or.inr ⟨[Char.ofNat 97], by decide⟩)).2⟩

/-- Claim C9: the mount deriver never deduplicates — two distinct folder
entries with equal basenames both yield a mount, with identical targets,
and the mount list keeps its full length. -/
theorem colliding_basenames_no_dedup (c : Config) (i j : Nat)
    (hi : i < c.Folders.length) (hj : j < c.Folders.length) (_hij : i ≠ j)
    (hd : dirname c.Folders[i] = dirname c.Folders[j]) :
    (deriveMounts c).length = c.Folders.length + 1 ∧
    (deriveMounts c)[i]? = some (folderMount c.Folders[i]) ∧
    (deriveMounts c)[j]? = some (folderMount c.Folders[j]) ∧
    (folderMount c.Folders[i]).Target = (folderMount c.Folders[j]).Target := by
  refine ⟨by simp [deriveMounts], ?_, ?_, ?_⟩
  · simp [deriveMounts, List.getElem?_append, hi, List.getElem?_eq_getElem]
  · simp [deriveMounts, List.getElem?_append, hj, List.getElem?_eq_getElem]
  · simp [folderMount, hd]

/-- Witness for C9 at `Folders = ["/a/x", "/b/x"]`: both mounts are
produced and both target `/mnt/folders/x`. -/
theorem colliding_basenames_no_dedup_witness :
    (deriveMounts cfgCollide).length = cfgCollide.Folders.length + 1 ∧
    (deriveMounts cfgCollide)[0]? = some (folderMount "/a/x") ∧
    (deriveMounts cfgCollide)[1]? = some (folderMount "/b/x") ∧
    (folderMount "/a/x").Target = "/mnt/folders/x" ∧
    (folderMount "/b/x").Target = "/mnt/folders/x" :=
  ⟨(colliding_basenames_no_dedup cfgCollide 0 1 (by decide) (by decide) (by decide)
      (by decide)).1, by decide, by decide, by decide, by decide⟩

/-- Claim C10: assuming the earlier rules pass, the Uid/Gid rule fires
exactly on the value zero — negative ids pass validation and are encoded
in decimal into the `USERID`/`GROUPID` environment variables. -/
theorem uid_gid_zero_only (c : Config)
    (h1 : c.Storage ≠ "") (h2 : detectCmdInjection c.Storage = false)
    (h3 : ¬(c.Ip ≠ "" ∧ c.Network = "")) (h4 : detectCmdInjection c.Ip = false)
    (h5 : detectCmdInjection c.Network = false)
    (h6 : c.Folders.any detectCmdInjection = false) :
    (validateConfig c = some ValidationError.uidGidRequired ↔ (c.Uid = 0 ∨ c.Gid = 0)) ∧
    (c.Uid ≠ 0 → c.Gid ≠ 0 → validateConfig c = none) ∧
    buildEnvVars c = ["USERID=" ++ toString c.Uid, "GROUPID=" ++ toString c.Gid] := by
  refine ⟨?_, ?_, rfl⟩
  · rw [vc_uidGid_iff]
    tauto
  · intro hu hg
    rw [vc_none_iff]
    tauto

/-- Witness for C10 at `Uid = Gid = -1`: validation passes and the
environment holds `USERID=-1`, `GROUPID=-1`. -/
theorem uid_gid_zero_only_witness :
    validateConfig cfgNegativeIds = none ∧
    buildEnvVars cfgNegativeIds = ["USERID=-1", "GROUPID=-1"] :=
  ⟨(uid_gid_zero_only cfgNegativeIds (by decide) (by decide) (by decide) (by decide)
      (by decide) (by decide)).2.1 (by decide) (by decide), by decide⟩

end Btsyncw
